import Mathlib

/-!
Shallow embedding of the LogiCam Control interactive webcam controller
(src/webcam.ts and src/ui.tsx).

The external v4l2 device is modelled as an abstract `Device` environment:
its scalar controls always apply, while the two exclusive-access calls
(`setVideoFormat`, `setFrameRate`) succeed or fail according to the
`fmtError` / `rateError` fields (mirroring the DEVICE_BUSY / UNKNOWN
outcomes the code distinguishes).  Every backend invocation is recorded
as a `BackendCall` value so that claims about "no backend call" and call
ordering are directly expressible.
-/

namespace LogiCam

/-- `WebcamSettings` record from src/webcam.ts. -/
structure WebcamSettings where
  brightness : Int
  contrast : Int
  saturation : Int
  sharpness : Int
  gain : Int
  autoExposure : Bool
  autoFocus : Bool
  autoWhiteBalance : Bool
  powerLineFrequency : Int
  exposureValue : Int
  focusValue : Int
  whiteBalanceValue : Int
deriving DecidableEq, Repr

/-- `VideoFormat` record from src/webcam.ts. -/
structure VideoFormat where
  width : Int
  height : Int
  pixelFormat : String
  frameRate : Int
deriving DecidableEq, Repr

/-- A single invocation of the external v4l2 backend, as issued by the
`WebcamController` methods (`--set-ctrl`, `--set-fmt-video`, `--set-parm`). -/
inductive BackendCall where
  | setCtrl (control : String) (value : Int)
  | setFmt (width height : Int) (pixelFormat : String)
  | setParm (fps : Int)
deriving DecidableEq, Repr

/-- Result record of `setVideoFormat` / `setFrameRate`
(`{ success: boolean; error?: string }`). -/
structure FmtResult where
  success : Bool
  error : Option String := none
deriving DecidableEq, Repr

/-- Result record of the two composite operations
(`{ success: boolean; errors: string[] }`). -/
structure CompositeResult where
  success : Bool
  errors : List String
deriving DecidableEq, Repr

/-- Abstract model of the external camera device.  `fmtError` / `rateError`
are the outcomes the next `setVideoFormat` / `setFrameRate` shell call would
produce (`none` = success, `some "DEVICE_BUSY"` / `some "UNKNOWN"` = the two
error classes distinguished by webcam.ts).  `inUse` is what
`getDeviceStatus` reports, and `detailedInfo` what `getDetailedInfo`
returns. -/
structure Device where
  settings : WebcamSettings
  format : VideoFormat
  fmtError : Option String := none
  rateError : Option String := none
  inUse : Bool := false
  detailedInfo : String := ""
deriving DecidableEq, Repr

/-- Interpretation of a `--set-ctrl` call by the device: updates the field
named by the v4l2 control, inverting the encodings used by
`getCurrentSettings` (`auto_exposure` is 3 = on / 1 = off, the other two
auto controls are 1 = on / 0 = off). -/
def deviceApplyCtrl (d : Device) (control : String) (value : Int) : Device :=
  if control = "brightness" then { d with settings := { d.settings with brightness := value } }
  else if control = "contrast" then { d with settings := { d.settings with contrast := value } }
  else if control = "saturation" then { d with settings := { d.settings with saturation := value } }
  else if control = "sharpness" then { d with settings := { d.settings with sharpness := value } }
  else if control = "gain" then { d with settings := { d.settings with gain := value } }
  else if control = "auto_exposure" then { d with settings := { d.settings with autoExposure := value = 3 } }
  else if control = "focus_automatic_continuous" then { d with settings := { d.settings with autoFocus := value = 1 } }
  else if control = "white_balance_automatic" then { d with settings := { d.settings with autoWhiteBalance := value = 1 } }
  else if control = "power_line_frequency" then { d with settings := { d.settings with powerLineFrequency := value } }
  else if control = "exposure_time_absolute" then { d with settings := { d.settings with exposureValue := value } }
  else if control = "focus_absolute" then { d with settings := { d.settings with focusValue := value } }
  else if control = "white_balance_temperature" then { d with settings := { d.settings with whiteBalanceValue := value } }
  else d

/-- `WebcamController.setControl` (webcam.ts lines 97-104): issues one
`--set-ctrl` call; scalar control writes are modelled as always accepted
(their boolean result is ignored by every caller in ui.tsx). -/
def setControl (d : Device) (control : String) (value : Int) :
    Device × List BackendCall × Bool :=
  (deviceApplyCtrl d control value, [.setCtrl control value], true)

/-- `setBrightness` (webcam.ts): clamps to [0, 255]. -/
def setBrightness (d : Device) (value : Int) : Device × List BackendCall × Bool :=
  setControl d "brightness" (max 0 (min 255 value))

/-- `setContrast` (webcam.ts): clamps to [0, 255]. -/
def setContrast (d : Device) (value : Int) : Device × List BackendCall × Bool :=
  setControl d "contrast" (max 0 (min 255 value))

/-- `setSaturation` (webcam.ts): clamps to [0, 255]. -/
def setSaturation (d : Device) (value : Int) : Device × List BackendCall × Bool :=
  setControl d "saturation" (max 0 (min 255 value))

/-- `setSharpness` (webcam.ts): clamps to [0, 255]. -/
def setSharpness (d : Device) (value : Int) : Device × List BackendCall × Bool :=
  setControl d "sharpness" (max 0 (min 255 value))

/-- `setGain` (webcam.ts): clamps to [0, 255]. -/
def setGain (d : Device) (value : Int) : Device × List BackendCall × Bool :=
  setControl d "gain" (max 0 (min 255 value))

/-- `setAutoExposure` (webcam.ts): 3 = aperture-priority auto, 1 = manual. -/
def setAutoExposure (d : Device) (enabled : Bool) : Device × List BackendCall × Bool :=
  setControl d "auto_exposure" (if enabled then 3 else 1)

/-- `setAutoFocus` (webcam.ts). -/
def setAutoFocus (d : Device) (enabled : Bool) : Device × List BackendCall × Bool :=
  setControl d "focus_automatic_continuous" (if enabled then 1 else 0)

/-- `setAutoWhiteBalance` (webcam.ts). -/
def setAutoWhiteBalance (d : Device) (enabled : Bool) : Device × List BackendCall × Bool :=
  setControl d "white_balance_automatic" (if enabled then 1 else 0)

/-- `setPowerLineFrequency` (webcam.ts): clamps to [0, 2]. -/
def setPowerLineFrequency (d : Device) (frequency : Int) : Device × List BackendCall × Bool :=
  setControl d "power_line_frequency" (max 0 (min 2 frequency))

/-- `setExposureValue` (webcam.ts): clamps to [3, 2047]. -/
def setExposureValue (d : Device) (value : Int) : Device × List BackendCall × Bool :=
  setControl d "exposure_time_absolute" (max 3 (min 2047 value))

/-- `setFocusValue` (webcam.ts): clamps to [0, 250]. -/
def setFocusValue (d : Device) (value : Int) : Device × List BackendCall × Bool :=
  setControl d "focus_absolute" (max 0 (min 250 value))

/-- `setWhiteBalanceValue` (webcam.ts): clamps to [2000, 6500]. -/
def setWhiteBalanceValue (d : Device) (value : Int) : Device × List BackendCall × Bool :=
  setControl d "white_balance_temperature" (max 2000 (min 6500 value))

/-- `setVideoFormat` (webcam.ts lines 154-165): one `--set-fmt-video` call;
on success the device format changes, on failure the error string is the
classified cause. -/
def setVideoFormat (d : Device) (width height : Int) (pixelFormat : String) :
    Device × List BackendCall × FmtResult :=
  if d.fmtError = none then
    ({ d with format := { width := width, height := height,
                          pixelFormat := pixelFormat,
                          frameRate := d.format.frameRate } },
     [.setFmt width height pixelFormat], { success := true })
  else
    (d, [.setFmt width height pixelFormat], { success := false, error := d.fmtError })

/-- `setFrameRate` (webcam.ts lines 167-178): one `--set-parm` call. -/
def setFrameRate (d : Device) (fps : Int) : Device × List BackendCall × FmtResult :=
  if d.rateError = none then
    ({ d with format := { d.format with frameRate := fps } },
     [.setParm fps], { success := true })
  else
    (d, [.setParm fps], { success := false, error := d.rateError })

/-- `applyOptimalSettings` (webcam.ts lines 180-218): fixed ordered sequence
of backend calls; the two exclusive-access steps contribute error messages,
the scalar steps run unconditionally afterwards. -/
def webcamApplyOptimalSettings (d0 : Device) :
    Device × List BackendCall × CompositeResult :=
  let s1 := setVideoFormat d0 1920 1080 "MJPG"
  let errors1 : List String :=
    if s1.2.2.success then []
    else if s1.2.2.error = some "DEVICE_BUSY" then
      ["Cannot change video format: camera is in use by another application"]
    else ["Failed to set video format"]
  let s2 := setFrameRate s1.1 30
  let errors2 : List String :=
    if s2.2.2.success then []
    else if s2.2.2.error = some "DEVICE_BUSY" then
      ["Cannot change frame rate: camera is in use by another application"]
    else ["Failed to set frame rate"]
  let s3 := setAutoExposure s2.1 true
  let s4 := setAutoFocus s3.1 true
  let s5 := setAutoWhiteBalance s4.1 true
  let s6 := setPowerLineFrequency s5.1 2
  let s7 := setSaturation s6.1 128
  let s8 := setSharpness s7.1 128
  let s9 := setBrightness s8.1 128
  let s10 := setContrast s9.1 128
  let errors := errors1 ++ errors2
  (s10.1,
   s1.2.1 ++ s2.2.1 ++ s3.2.1 ++ s4.2.1 ++ s5.2.1 ++ s6.2.1 ++ s7.2.1 ++
     s8.2.1 ++ s9.2.1 ++ s10.2.1,
   { success := errors.length = 0, errors := errors })

/-- `resetToDefaults` (webcam.ts lines 220-260): fixed ordered sequence of
backend calls with error aggregation, ending in the scalar resets
(including the raw `backlight_compensation` control). -/
def webcamResetToDefaults (d0 : Device) :
    Device × List BackendCall × CompositeResult :=
  let s1 := setVideoFormat d0 640 480 "YUYV"
  let errors1 : List String :=
    if s1.2.2.success then []
    else if s1.2.2.error = some "DEVICE_BUSY" then
      ["Cannot reset video format: camera is in use by another application"]
    else ["Failed to reset video format"]
  let s2 := setFrameRate s1.1 30
  let errors2 : List String :=
    if s2.2.2.success then []
    else if s2.2.2.error = some "DEVICE_BUSY" then
      ["Cannot reset frame rate: camera is in use by another application"]
    else ["Failed to reset frame rate"]
  let s3 := setBrightness s2.1 128
  let s4 := setContrast s3.1 128
  let s5 := setSaturation s4.1 128
  let s6 := setSharpness s5.1 128
  let s7 := setGain s6.1 0
  let s8 := setAutoExposure s7.1 false
  let s9 := setAutoFocus s8.1 false
  let s10 := setAutoWhiteBalance s9.1 true
  let s11 := setPowerLineFrequency s10.1 1
  let s12 := setControl s11.1 "backlight_compensation" 0
  let errors := errors1 ++ errors2
  (s12.1,
   s1.2.1 ++ s2.2.1 ++ s3.2.1 ++ s4.2.1 ++ s5.2.1 ++ s6.2.1 ++ s7.2.1 ++
     s8.2.1 ++ s9.2.1 ++ s10.2.1 ++ s11.2.1 ++ s12.2.1,
   { success := errors.length = 0, errors := errors })

/-! ## UI layer (src/ui.tsx) -/

/-- Setting kind tag (`'range' | 'toggle' | 'select'` in ui.tsx). -/
inductive SettingKind where
  | range
  | toggle
  | select
deriving DecidableEq, Repr

/-- Current value of a catalog slot (`number | boolean | string` in ui.tsx). -/
inductive SettingValue where
  | num (n : Int)
  | flag (b : Bool)
  | str (s : String)
deriving DecidableEq, Repr

/-- `SettingItem` from ui.tsx: one catalog slot.  Optional fields are
`Option`s exactly where the TS interface marks them optional. -/
structure SettingItem where
  key : String
  label : String
  type : SettingKind
  value : SettingValue
  options : Option (List String) := none
  min : Option Int := none
  max : Option Int := none
  step : Option Int := none
deriving DecidableEq, Repr

/-- Dialog type tag (`'none' | 'help' | 'info' | 'reset' | 'error'`). -/
inductive DialogType where
  | none
  | help
  | info
  | reset
  | error
deriving DecidableEq, Repr

/-- `DialogState` from ui.tsx (the unused `onConfirm` callback is omitted). -/
structure DialogState where
  type : DialogType
  title : String := ""
  message : String := ""
deriving DecidableEq, Repr

/-- Notification severity (`'info' | 'success' | 'error'`). -/
inductive NotifType where
  | info
  | success
  | error
deriving DecidableEq, Repr

/-- `NotificationState` from ui.tsx. -/
structure NotificationState where
  message : String
  type : NotifType
  visible : Bool
deriving DecidableEq, Repr

/-- `getPowerLineDisplay` (ui.tsx lines 742-749). -/
def getPowerLineDisplay (frequency : Int) : String :=
  if frequency = 0 then "Disabled"
  else if frequency = 1 then "50Hz"
  else if frequency = 2 then "60Hz"
  else "Unknown"

/-- `getAutoSettingName` (ui.tsx lines 751-762). -/
def getAutoSettingName (manualKey : String) : String :=
  if manualKey = "exposureValue" then "Auto Exposure"
  else if manualKey = "focusValue" then "Auto Focus"
  else if manualKey = "whiteBalanceValue" then "Auto White Balance"
  else "Auto setting"

/-- The `settings` catalog memo (ui.tsx lines 50-169): the fixed ordered
sequence of all 15 settings, parameterized by the live values. -/
def buildSettings (cs : WebcamSettings) (cf : VideoFormat) : List SettingItem :=
  [ { key := "resolution", label := "Resolution", type := .select,
      value := .str (s!"{cf.width}x{cf.height}"),
      options := some ["640x480", "800x600", "1024x576", "1280x720", "1920x1080"] },
    { key := "format", label := "Pixel Format", type := .select,
      value := .str cf.pixelFormat,
      options := some ["YUYV", "MJPG"] },
    { key := "framerate", label := "Frame Rate", type := .select,
      value := .str (s!"{cf.frameRate}fps"),
      options := some ["5fps", "10fps", "15fps", "20fps", "24fps", "30fps"] },
    { key := "brightness", label := "Brightness", type := .range,
      value := .num cs.brightness, min := some 0, max := some 255, step := some 1 },
    { key := "contrast", label := "Contrast", type := .range,
      value := .num cs.contrast, min := some 0, max := some 255, step := some 1 },
    { key := "saturation", label := "Saturation", type := .range,
      value := .num cs.saturation, min := some 0, max := some 255, step := some 1 },
    { key := "sharpness", label := "Sharpness", type := .range,
      value := .num cs.sharpness, min := some 0, max := some 255, step := some 1 },
    { key := "gain", label := "Gain/ISO", type := .range,
      value := .num cs.gain, min := some 0, max := some 255, step := some 1 },
    { key := "autoExposure", label := "Auto Exposure", type := .toggle,
      value := .flag cs.autoExposure },
    { key := "exposureValue", label := "  └─ Exposure Value", type := .range,
      value := .num cs.exposureValue, min := some 3, max := some 2047, step := some 1 },
    { key := "autoFocus", label := "Auto Focus", type := .toggle,
      value := .flag cs.autoFocus },
    { key := "focusValue", label := "  └─ Focus Value", type := .range,
      value := .num cs.focusValue, min := some 0, max := some 250, step := some 5 },
    { key := "autoWhiteBalance", label := "Auto White Balance", type := .toggle,
      value := .flag cs.autoWhiteBalance },
    { key := "whiteBalanceValue", label := "  └─ White Balance Temp", type := .range,
      value := .num cs.whiteBalanceValue, min := some 2000, max := some 6500, step := some 10 },
    { key := "powerLineFrequency", label := "Power Line Filter", type := .select,
      value := .str (getPowerLineDisplay cs.powerLineFrequency),
      options := some ["Disabled", "50Hz", "60Hz"] } ]

/-- `shouldShowSetting` (ui.tsx lines 178-189): a manual-value key is
visible exactly when its controlling auto flag is off; every other key is
always visible. -/
def shouldShowSetting (cs : WebcamSettings) (key : String) : Bool :=
  if key = "exposureValue" then !cs.autoExposure
  else if key = "focusValue" then !cs.autoFocus
  else if key = "whiteBalanceValue" then !cs.autoWhiteBalance
  else true

/-- `isManualControlDisabled` (ui.tsx lines 191-202). -/
def isManualControlDisabled (cs : WebcamSettings) (key : String) : Bool :=
  if key = "exposureValue" then cs.autoExposure
  else if key = "focusValue" then cs.autoFocus
  else if key = "whiteBalanceValue" then cs.autoWhiteBalance
  else false

/-- The filtered visible catalog
(`settings.filter(s => shouldShowSetting(s.key))`). -/
def visibleSettingsOf (cs : WebcamSettings) (cf : VideoFormat) : List SettingItem :=
  (buildSettings cs cf).filter (fun it => shouldShowSetting cs it.key)

/-- Full UI component state (the `useState` hooks of the `App` component,
plus an `exited` flag modelling the `exit()` call). -/
structure UIState where
  currentSettings : WebcamSettings
  currentFormat : VideoFormat
  selectedIndex : Nat
  deviceBusy : Bool
  dialog : DialogState
  notification : NotificationState
  exited : Bool := false
deriving DecidableEq, Repr

/-- Combined system state: the UI component together with the device it
controls. -/
structure Sys where
  device : Device
  ui : UIState
deriving DecidableEq, Repr

/-- The visible catalog as the component currently sees it. -/
def visibleSettings (s : Sys) : List SettingItem :=
  visibleSettingsOf s.ui.currentSettings s.ui.currentFormat

/-- `showNotification` (ui.tsx lines 204-209), state part: makes the
message visible.  (The 2000 ms expiry timer has no further effect on the
transitions modelled here; its timing behaviour is modelled separately by
`NotifTimeline`.) -/
def showNotification (s : Sys) (message : String) (t : NotifType) : Sys :=
  { s with ui := { s.ui with
      notification := { message := message, type := t, visible := true } } }

/-- `setDialog` state update. -/
def setDialog (s : Sys) (d : DialogState) : Sys :=
  { s with ui := { s.ui with dialog := d } }

/-- `refreshSettings` (ui.tsx lines 171-176): unconditional resync of
settings, format and busy flag from the device. -/
def refreshSettings (s : Sys) : Sys :=
  { s with ui := { s.ui with
      currentSettings := s.device.settings,
      currentFormat := s.device.format,
      deviceBusy := s.device.inUse } }

/-- Coercion used for `setting.value as number`. -/
def valNum : SettingValue → Int
  | .num n => n
  | _ => 0

/-- Coercion used for `setting.value as boolean`. -/
def valFlag : SettingValue → Bool
  | .flag b => b
  | _ => false

/-- Coercion used for `setting.value as string`. -/
def valStr : SettingValue → String
  | .str s => s
  | _ => ""

/-- JavaScript `x || default` on an optional number (`undefined`, `0` and
`NaN` are falsy; `NaN` does not arise in this program). -/
def jsOrNum (x : Option Int) (d : Int) : Int :=
  match x with
  | none => d
  | some v => if v = 0 then d else v

/-- JavaScript `x || default` on an optional string (`undefined` and `""`
are falsy). -/
def jsOrStr (x : Option String) (d : String) : String :=
  match x with
  | none => d
  | some v => if v = "" then d else v

/-- `applySetting` (ui.tsx lines 211-248): dispatches a scalar value to the
matching backend setter (unknown keys fall through to no call), then always
resyncs. -/
def applySetting (s : Sys) (key : String) (value : SettingValue) :
    Sys × List BackendCall :=
  let step : Device × List BackendCall :=
    if key = "brightness" then
      let r := setBrightness s.device (valNum value); (r.1, r.2.1)
    else if key = "contrast" then
      let r := setContrast s.device (valNum value); (r.1, r.2.1)
    else if key = "saturation" then
      let r := setSaturation s.device (valNum value); (r.1, r.2.1)
    else if key = "sharpness" then
      let r := setSharpness s.device (valNum value); (r.1, r.2.1)
    else if key = "gain" then
      let r := setGain s.device (valNum value); (r.1, r.2.1)
    else if key = "autoExposure" then
      let r := setAutoExposure s.device (valFlag value); (r.1, r.2.1)
    else if key = "exposureValue" then
      let r := setExposureValue s.device (valNum value); (r.1, r.2.1)
    else if key = "autoFocus" then
      let r := setAutoFocus s.device (valFlag value); (r.1, r.2.1)
    else if key = "focusValue" then
      let r := setFocusValue s.device (valNum value); (r.1, r.2.1)
    else if key = "autoWhiteBalance" then
      let r := setAutoWhiteBalance s.device (valFlag value); (r.1, r.2.1)
    else if key = "whiteBalanceValue" then
      let r := setWhiteBalanceValue s.device (valNum value); (r.1, r.2.1)
    else (s.device, [])
  (refreshSettings { s with device := step.1 }, step.2)

/-- `value.split('x').map(Number)` destructured into `[width, height]`. -/
def parseResolution (v : String) : Int × Int :=
  let parts := (v.splitOn "x").map (fun p => ((p.toNat?).getD 0 : Int))
  (parts.getD 0 0, parts.getD 1 0)

/-- `parseInt(value.replace('fps', ''))`. -/
def parseFps (v : String) : Int :=
  (((v.replace "fps" "").toNat?).getD 0 : Int)

/-- `applySelectSetting` (ui.tsx lines 250-286): the three format-affecting
keys go through the fallible backend calls, with an error notification on a
`DEVICE_BUSY` outcome; power-line frequency is applied unconditionally;
then always resync. -/
def applySelectSetting (s : Sys) (key value : String) : Sys × List BackendCall :=
  let catalog := buildSettings s.ui.currentSettings s.ui.currentFormat
  if key = "resolution" then
    let wh := parseResolution value
    let currentFormatStr :=
      jsOrStr ((catalog.find? (fun it => it.key = "format")).map (fun it => valStr it.value)) "MJPG"
    let r := setVideoFormat s.device wh.1 wh.2 currentFormatStr
    let s1 := if !r.2.2.success && r.2.2.error = some "DEVICE_BUSY" then
        showNotification s "Cannot change resolution: camera is in use" .error
      else s
    (refreshSettings { s1 with device := r.1 }, r.2.1)
  else if key = "format" then
    let currentRes :=
      jsOrStr ((catalog.find? (fun it => it.key = "resolution")).map (fun it => valStr it.value)) "1920x1080"
    let wh := parseResolution currentRes
    let r := setVideoFormat s.device wh.1 wh.2 value
    let s1 := if !r.2.2.success && r.2.2.error = some "DEVICE_BUSY" then
        showNotification s "Cannot change pixel format: camera is in use" .error
      else s
    (refreshSettings { s1 with device := r.1 }, r.2.1)
  else if key = "framerate" then
    let r := setFrameRate s.device (parseFps value)
    let s1 := if !r.2.2.success && r.2.2.error = some "DEVICE_BUSY" then
        showNotification s "Cannot change frame rate: camera is in use" .error
      else s
    (refreshSettings { s1 with device := r.1 }, r.2.1)
  else if key = "powerLineFrequency" then
    let freq : Int := if value = "50Hz" then 1 else if value = "60Hz" then 2 else 0
    let r := setPowerLineFrequency s.device freq
    (refreshSettings { s with device := r.1 }, r.2.1)
  else
    (refreshSettings s, [])

/-- The Range arithmetic of `adjustCurrentSetting` (ui.tsx line 311):
`Math.max(min, Math.min(max, value + delta * step))`. -/
def adjustRange (mn mx step value delta : Int) : Int :=
  max mn (min mx (value + delta * step))

/-- JavaScript `Array.prototype.indexOf`: first index of `v`, `-1` when
absent. -/
def jsIndexOf : List String → String → Int
  | [], _ => -1
  | x :: xs, v =>
    if x = v then 0
    else
      let r := jsIndexOf xs v
      if r = -1 then -1 else r + 1

/-- The Select arithmetic of `adjustCurrentSetting` (ui.tsx lines 316-318):
`newIndex = Math.max(0, Math.min(options.length - 1, indexOf(value) + delta))`,
result `options[newIndex]` (the empty string models the out-of-range
`undefined`, which cannot arise for a non-empty options list). -/
def adjustSelect (options : List String) (value : String) (delta : Int) : String :=
  let currentIndex := jsIndexOf options value
  let newIndex := max 0 (min ((options.length : Int) - 1) (currentIndex + delta))
  options.getD newIndex.toNat ""

/-- Body of `adjustCurrentSetting` after the selected setting has been
fetched (ui.tsx lines 293-324): busy guard, dependency guard, then the
kind-specific adjustment. -/
def adjustSettingCore (s : Sys) (setting : SettingItem) (delta : Int) :
    Sys × List BackendCall :=
  let isFormatSetting := ["resolution", "format", "framerate"].contains setting.key
  if s.ui.deviceBusy && isFormatSetting then
    (showNotification s "Cannot change: camera is in use" .error, [])
  else if isManualControlDisabled s.ui.currentSettings setting.key then
    (showNotification s ("Cannot adjust: " ++ getAutoSettingName setting.key ++ " is enabled") .error, [])
  else
    match setting.type with
    | .range =>
      let step := jsOrNum setting.step 1
      let mn := jsOrNum setting.min 0
      let mx := jsOrNum setting.max 255
      applySetting s setting.key (.num (adjustRange mn mx step (valNum setting.value) delta))
    | .select =>
      match setting.options with
      | some opts => applySelectSetting s setting.key (adjustSelect opts (valStr setting.value) delta)
      | none => (s, [])
    | .toggle =>
      applySetting s setting.key (.flag (!(valFlag setting.value)))

/-- `adjustCurrentSetting` (ui.tsx lines 288-325): select the visible
setting at `selectedIndex` and adjust it; an out-of-range index is an
immediate return. -/
def adjustCurrentSetting (s : Sys) (delta : Int) : Sys × List BackendCall :=
  match (visibleSettings s)[s.ui.selectedIndex]? with
  | Option.none => (s, [])
  | Option.some setting => adjustSettingCore s setting delta

/-- `applyOptimalSettings` handler in the UI (ui.tsx lines 327-345). -/
def uiApplyOptimalSettings (s : Sys) : Sys × List BackendCall :=
  let s1 := showNotification s "Applying optimal settings..." .info
  let step := webcamApplyOptimalSettings s1.device
  let s2 := refreshSettings { s1 with device := step.1 }
  let result := step.2.2
  let s3 :=
    if result.success then
      showNotification s2 "Optimal settings applied successfully!" .success
    else if result.errors.length > 0 then
      setDialog s2 { type := .error, title := "Optimal Settings - Partial Success",
                     message := String.intercalate ". " result.errors ++ "." }
    else
      showNotification s2 "Failed to apply optimal settings" .error
  (s3, step.2.1)

/-- `resetToDefaults` handler in the UI (ui.tsx lines 347-366), including
the trailing unconditional `setDialog({ type: 'none' })` of line 365. -/
def uiResetToDefaults (s : Sys) : Sys × List BackendCall :=
  let s1 := showNotification s "Resetting to factory defaults..." .info
  let step := webcamResetToDefaults s1.device
  let s2 := refreshSettings { s1 with device := step.1 }
  let result := step.2.2
  let s3 :=
    if result.success then
      showNotification s2 "Factory defaults restored successfully!" .success
    else if result.errors.length > 0 then
      setDialog s2 { type := .error, title := "Reset to Defaults - Partial Success",
                     message := String.intercalate ". " result.errors ++ "." }
    else
      showNotification s2 "Failed to reset to defaults" .error
  (setDialog s3 { type := .none }, step.2.1)

/-- Keyboard events recognized by `useInput` in ui.tsx. -/
inductive Key where
  | upArrow
  | downArrow
  | leftArrow
  | rightArrow
  | enter
  | pageUp
  | pageDown
  | escape
  | char (c : Char)
  | ctrlC
deriving DecidableEq, Repr

/-- The `useInput` handler (ui.tsx lines 368-420): dialog gating first,
then navigation, adjustment and the shortcut actions. -/
def handleInput (s : Sys) (k : Key) : Sys × List BackendCall :=
  if s.ui.dialog.type ≠ .none then
    if s.ui.dialog.type = .reset then
      if k = .char 'y' ∨ k = .char 'Y' then
        uiResetToDefaults (setDialog s { type := .none })
      else if k = .char 'n' ∨ k = .char 'N' ∨ k = .escape then
        (setDialog s { type := .none }, [])
      else (s, [])
    else
      if k = .enter ∨ k = .escape ∨ k = .char 'q' then
        (setDialog s { type := .none }, [])
      else (s, [])
  else
    match k with
    | .upArrow =>
      ({ s with ui := { s.ui with selectedIndex := s.ui.selectedIndex - 1 } }, [])
    | .downArrow =>
      ({ s with ui := { s.ui with
          selectedIndex := min ((visibleSettings s).length - 1) (s.ui.selectedIndex + 1) } }, [])
    | .leftArrow => adjustCurrentSetting s (-1)
    | .rightArrow => adjustCurrentSetting s 1
    | .enter => adjustCurrentSetting s 0
    | .pageUp => adjustCurrentSetting s (-10)
    | .pageDown => adjustCurrentSetting s 10
    | .escape => (s, [])
    | .ctrlC => ({ s with ui := { s.ui with exited := true } }, [])
    | .char c =>
      if c = 'o' ∨ c = 'O' then uiApplyOptimalSettings s
      else if c = 'r' ∨ c = 'R' then
        (setDialog s { type := .reset, title := "Reset to Factory Defaults",
                       message := "This will reset all settings to factory defaults.\nAre you sure you want to continue?" }, [])
      else if c = 'i' ∨ c = 'I' then
        (setDialog s { type := .info, title := "Detailed Camera Information",
                       message := s.device.detailedInfo }, [])
      else if c = 'h' ∨ c = 'H' ∨ c = '?' then
        (setDialog s { type := .help }, [])
      else if c = 'q' ∨ c = 'Q' then
        ({ s with ui := { s.ui with exited := true } }, [])
      else (s, [])

/-! ## Timing model of the notification expiry timer

`showNotification` (ui.tsx lines 204-209) schedules
`setTimeout(() => setNotification(prev => ({ ...prev, visible: false })), 2000)`
without storing the handle and without ever calling `clearTimeout`, so
every previously scheduled timeout stays pending.  `NotifTimeline` records
the notification state together with the absolute fire times of all
pending timeouts; `elapseTo` runs every timeout due by the given time
(each one sets `visible := false` and leaves message/severity in place). -/

/-- Notification state plus the fire times (ms) of all pending
`setTimeout` callbacks scheduled by `showNotification`. -/
structure NotifTimeline where
  current : NotificationState
  timers : List Nat
deriving DecidableEq, Repr

/-- `showNotification` called at absolute time `now`: sets the new message
visible and schedules one more expiry callback at `now + 2000`, leaving
any earlier pending callbacks in place (the source keeps no handle and
never cancels). -/
def showNotificationAt (tl : NotifTimeline) (now : Nat) (message : String)
    (t : NotifType) : NotifTimeline :=
  { current := { message := message, type := t, visible := true },
    timers := tl.timers ++ [now + 2000] }

/-- Advance wall-clock time to `t`: every pending callback due by `t`
fires, each setting `visible := false` on the current notification. -/
def elapseTo (tl : NotifTimeline) (t : Nat) : NotifTimeline :=
  { current := if tl.timers.any (fun ft => decide (ft ≤ t)) then
        { tl.current with visible := false }
      else tl.current,
    timers := tl.timers.filter (fun ft => decide (t < ft)) }

/-- An idle timeline: nothing shown, no timers pending. -/
def emptyTimeline : NotifTimeline :=
  { current := { message := "", type := .info, visible := false }, timers := [] }

/-! ## Concrete sample states used by witnesses and counterexamples -/

/-- Sample device settings (the documented factory defaults, all
auto-flags off so that every catalog entry is visible). -/
def sampleSettings : WebcamSettings :=
  { brightness := 128, contrast := 128, saturation := 128, sharpness := 128,
    gain := 0, autoExposure := false, autoFocus := false,
    autoWhiteBalance := false, powerLineFrequency := 2,
    exposureValue := 250, focusValue := 0, whiteBalanceValue := 4000 }

/-- Sample video format. -/
def sampleFormat : VideoFormat :=
  { width := 1920, height := 1080, pixelFormat := "MJPG", frameRate := 30 }

/-- Idle notification. -/
def idleNotification : NotificationState :=
  { message := "", type := .info, visible := false }

/-- A device that accepts every call. -/
def freeDevice : Device :=
  { settings := sampleSettings, format := sampleFormat }

/-- A device whose exclusive-access calls fail with DEVICE_BUSY and which
reports itself in use. -/
def busyDevice : Device :=
  { settings := sampleSettings, format := sampleFormat,
    fmtError := some "DEVICE_BUSY", rateError := some "DEVICE_BUSY",
    inUse := true }

/-- Build a system state whose UI mirror agrees with the device. -/
def mkSys (d : Device) (idx : Nat) (busy : Bool) (dlg : DialogState) : Sys :=
  { device := d,
    ui := { currentSettings := d.settings, currentFormat := d.format,
            selectedIndex := idx, deviceBusy := busy, dialog := dlg,
            notification := idleNotification } }

/-- The fixed ordered backend call sequence of `applyOptimalSettings`. -/
def optimalCallList : List BackendCall :=
  [ .setFmt 1920 1080 "MJPG",
    .setParm 30,
    .setCtrl "auto_exposure" 3,
    .setCtrl "focus_automatic_continuous" 1,
    .setCtrl "white_balance_automatic" 1,
    .setCtrl "power_line_frequency" 2,
    .setCtrl "saturation" 128,
    .setCtrl "sharpness" 128,
    .setCtrl "brightness" 128,
    .setCtrl "contrast" 128 ]

/-- The fixed ordered backend call sequence of `resetToDefaults`. -/
def resetCallList : List BackendCall :=
  [ .setFmt 640 480 "YUYV",
    .setParm 30,
    .setCtrl "brightness" 128,
    .setCtrl "contrast" 128,
    .setCtrl "saturation" 128,
    .setCtrl "sharpness" 128,
    .setCtrl "gain" 0,
    .setCtrl "auto_exposure" 1,
    .setCtrl "focus_automatic_continuous" 0,
    .setCtrl "white_balance_automatic" 1,
    .setCtrl "power_line_frequency" 1,
    .setCtrl "backlight_compensation" 0 ]

/-- The two-notifications-500ms-apart scenario: `showNotification` at
t = 0 ("first") and again at t = 500 ("second"), with time advanced in
between. -/
def twoNotifyTimeline : NotifTimeline :=
  showNotificationAt (elapseTo (showNotificationAt emptyTimeline 0 "first" .info) 500)
    500 "second" .info

/-- Sample settings with every auto-flag enabled. -/
def autoOnSettings : WebcamSettings :=
  { sampleSettings with autoExposure := true, autoFocus := true, autoWhiteBalance := true }

/-- The resolution catalog entry as produced for `sampleFormat`. -/
def sampleResolutionItem : SettingItem :=
  { key := "resolution", label := "Resolution", type := .select,
    value := .str "1920x1080",
    options := some ["640x480", "800x600", "1024x576", "1280x720", "1920x1080"] }

/-- The brightness catalog entry as produced for `sampleSettings`. -/
def sampleBrightnessItem : SettingItem :=
  { key := "brightness", label := "Brightness", type := .range,
    value := .num 128, min := some 0, max := some 255, step := some 1 }

/-- A device whose settings have every auto-flag enabled. -/
def autoDevice : Device :=
  { settings := autoOnSettings, format := sampleFormat }

/-- The exposure-value catalog entry as produced for `sampleSettings`. -/
def sampleExposureItem : SettingItem :=
  { key := "exposureValue", label := "  └─ Exposure Value", type := .range,
    value := .num 250, min := some 3, max := some 2047, step := some 1 }

/-! ## Helper lemmas -/

theorem webcamResetToDefaults_calls (d : Device) :
    (webcamResetToDefaults d).2.1 = resetCallList := by
  rcases d with ⟨ds, df, fe, re, iu, di⟩
  cases fe <;> cases re <;> rfl

theorem webcamApplyOptimalSettings_calls (d : Device) :
    (webcamApplyOptimalSettings d).2.1 = optimalCallList := by
  rcases d with ⟨ds, df, fe, re, iu, di⟩
  cases fe <;> cases re <;> rfl

theorem uiApplyOptimalSettings_selectedIndex (s : Sys) :
    (uiApplyOptimalSettings s).1.ui.selectedIndex = s.ui.selectedIndex := by
  simp only [uiApplyOptimalSettings]
  split <;> (try split) <;> rfl

theorem uiResetToDefaults_selectedIndex (s : Sys) :
    (uiResetToDefaults s).1.ui.selectedIndex = s.ui.selectedIndex := by
  simp only [uiResetToDefaults]
  split <;> (try split) <;> rfl

theorem uiResetToDefaults_dialog (s : Sys) :
    (uiResetToDefaults s).1.ui.dialog = { type := .none } := by
  rfl

theorem uiResetToDefaults_calls (s : Sys) :
    (uiResetToDefaults s).2 = resetCallList :=
  webcamResetToDefaults_calls s.device

theorem webcamApplyOptimalSettings_success_iff (d : Device) :
    (webcamApplyOptimalSettings d).2.2.success = true ↔
      (webcamApplyOptimalSettings d).2.2.errors = [] := by
  rcases d with ⟨ds, df, fe, re, iu, di⟩
  cases fe <;> cases re <;>
    simp [webcamApplyOptimalSettings, setVideoFormat, setFrameRate,
      List.length_eq_zero]

theorem webcamResetToDefaults_success_iff (d : Device) :
    (webcamResetToDefaults d).2.2.success = true ↔
      (webcamResetToDefaults d).2.2.errors = [] := by
  rcases d with ⟨ds, df, fe, re, iu, di⟩
  cases fe <;> cases re <;>
    simp [webcamResetToDefaults, setVideoFormat, setFrameRate,
      List.length_eq_zero]

theorem applySetting_deviceBusy_irrel (d : Device) (cs : WebcamSettings)
    (cf : VideoFormat) (idx : Nat) (b b' : Bool) (dlg : DialogState)
    (ntf : NotificationState) (ex : Bool) (key : String) (v : SettingValue) :
    applySetting
        { device := d,
          ui := { currentSettings := cs, currentFormat := cf, selectedIndex := idx,
                  deviceBusy := b, dialog := dlg, notification := ntf, exited := ex } }
        key v =
      applySetting
        { device := d,
          ui := { currentSettings := cs, currentFormat := cf, selectedIndex := idx,
                  deviceBusy := b', dialog := dlg, notification := ntf, exited := ex } }
        key v := by
  rfl

theorem applySelectSetting_deviceBusy_irrel (d : Device) (cs : WebcamSettings)
    (cf : VideoFormat) (idx : Nat) (b b' : Bool) (dlg : DialogState)
    (ntf : NotificationState) (ex : Bool) (key value : String) :
    applySelectSetting
        { device := d,
          ui := { currentSettings := cs, currentFormat := cf, selectedIndex := idx,
                  deviceBusy := b, dialog := dlg, notification := ntf, exited := ex } }
        key value =
      applySelectSetting
        { device := d,
          ui := { currentSettings := cs, currentFormat := cf, selectedIndex := idx,
                  deviceBusy := b', dialog := dlg, notification := ntf, exited := ex } }
        key value := by
  simp only [applySelectSetting]
  split_ifs <;> rfl

theorem jsIndexOf_of_not_mem (l : List String) (v : String) (h : v ∉ l) :
    jsIndexOf l v = -1 := by
  induction l with
  | nil => rfl
  | cons x xs ih =>
    simp only [List.mem_cons, not_or] at h
    have hx : x ≠ v := fun hx => h.1 hx.symm
    simp [jsIndexOf, hx, ih h.2]

theorem adjustSelect_mem (options : List String) (value : String) (delta : Int)
    (h : options ≠ []) : adjustSelect options value delta ∈ options := by
  have hL : 0 < options.length := List.length_pos.mpr h
  simp only [adjustSelect]
  have hn : (max 0 (min ((options.length : Int) - 1) (jsIndexOf options value + delta))).toNat
      < options.length := by
    have h1 : min ((options.length : Int) - 1) (jsIndexOf options value + delta)
        ≤ (options.length : Int) - 1 := min_le_left _ _
    omega
  rw [List.getD_eq_getElem?_getD, List.getElem?_eq_getElem hn]
  exact Option.getD_some ▸ List.getElem_mem hn

theorem adjustSettingCore_deviceBusy_irrel (s : Sys) (item : SettingItem)
    (delta : Int) (b : Bool)
    (hc : (["resolution", "format", "framerate"].contains item.key) = false) :
    (adjustSettingCore { s with ui := { s.ui with deviceBusy := b } } item delta).2
        = (adjustSettingCore s item delta).2 ∧
    (adjustSettingCore { s with ui := { s.ui with deviceBusy := b } } item delta).1.device
        = (adjustSettingCore s item delta).1.device ∧
    (adjustSettingCore { s with ui := { s.ui with deviceBusy := b } } item delta).1.ui.currentSettings
        = (adjustSettingCore s item delta).1.ui.currentSettings ∧
    (adjustSettingCore { s with ui := { s.ui with deviceBusy := b } } item delta).1.ui.currentFormat
        = (adjustSettingCore s item delta).1.ui.currentFormat ∧
    (adjustSettingCore { s with ui := { s.ui with deviceBusy := b } } item delta).1.ui.notification
        = (adjustSettingCore s item delta).1.ui.notification ∧
    (adjustSettingCore { s with ui := { s.ui with deviceBusy := b } } item delta).1.ui.dialog
        = (adjustSettingCore s item delta).1.ui.dialog ∧
    (adjustSettingCore { s with ui := { s.ui with deviceBusy := b } } item delta).1.ui.selectedIndex
        = (adjustSettingCore s item delta).1.ui.selectedIndex := by
  obtain ⟨d, ⟨cs, cf, idx, db, dlg, ntf, ex⟩⟩ := s
  simp only [adjustSettingCore, hc, Bool.and_false, Bool.false_eq_true, if_false]
  by_cases hdis : isManualControlDisabled cs item.key = true
  · simp [hdis, showNotification]
  · simp only [Bool.not_eq_true] at hdis
    simp only [hdis, Bool.false_eq_true, if_false]
    cases item.type <;> dsimp only
    · rw [applySetting_deviceBusy_irrel d cs cf idx b db]
      exact ⟨rfl, rfl, rfl, rfl, rfl, rfl, rfl⟩
    · rw [applySetting_deviceBusy_irrel d cs cf idx b db]
      exact ⟨rfl, rfl, rfl, rfl, rfl, rfl, rfl⟩
    · cases item.options <;> dsimp only
      · exact ⟨rfl, rfl, rfl, rfl, rfl, rfl, rfl⟩
      · rw [applySelectSetting_deviceBusy_irrel d cs cf idx b db]
        exact ⟨rfl, rfl, rfl, rfl, rfl, rfl, rfl⟩

theorem adjustCurrentSetting_eq_core (s : Sys) (delta : Int) (item : SettingItem)
    (hsel : (visibleSettings s)[s.ui.selectedIndex]? = some item) :
    adjustCurrentSetting s delta = adjustSettingCore s item delta := by
  unfold adjustCurrentSetting
  rw [hsel]

/-! ## Claim theorems -/

/-- C1 (code_bug evidence): for the Reset-to-Defaults composite operation
with a busy device, the backend result carries a non-empty error list with
the claimed joined message, yet the resulting dialog state is `none`, not
an Error dialog: the `setDialog` of ui.tsx line 356 is unconditionally
overwritten by the trailing `setDialog({ type: 'none' })` of line 365. -/
theorem c1_reset_error_dialog_overwritten :
    (webcamResetToDefaults busyDevice).2.2.errors ≠ [] ∧
    String.intercalate ". " (webcamResetToDefaults busyDevice).2.2.errors ++ "." =
      "Cannot reset video format: camera is in use by another application. " ++
        "Cannot reset frame rate: camera is in use by another application." ∧
    (uiResetToDefaults (mkSys busyDevice 0 true { type := .none })).1.ui.dialog =
      { type := .none } := by
  refine ⟨by decide, by decide, rfl⟩

/-- C3 counterexample: the claim says a superseding notification stays
visible for its own full 2000 ms window (the earlier timer being
cancelled).  In the code no timer is ever cancelled: with notifications at
t = 0 and t = 500, the first timer fires at t = 2000 — only 1500 ms into
the second notification's window — and hides the second notification. -/
theorem c3_counterexample :
    (elapseTo twoNotifyTimeline 2000).current.message = "second" ∧
    (elapseTo twoNotifyTimeline 2000).current.visible = false := by
  decide

/-- C3 amended: `showNotification` never cancels the earlier 2000 ms
timer — after the second call both timers (t = 2000 and t = 2500) are
pending — so the earlier timer hides the superseding notification when it
fires 2000 ms after the first call.  With two notifications 500 ms apart,
only the second is visible at the 1000 ms mark after the second; 1500 ms
after the second, visibility is already false; and at the 2500 ms mark
after the second it is still false. -/
theorem c3_no_cancellation :
    twoNotifyTimeline.timers = [2000, 2500] ∧
    (elapseTo twoNotifyTimeline 1500).current =
      { message := "second", type := .info, visible := true } ∧
    (elapseTo twoNotifyTimeline 2000).current.visible = false ∧
    (elapseTo twoNotifyTimeline 3000).current.visible = false := by
  decide

/-- C4 counterexample: for the resolution Select options, a current value
absent from the list does not behave as index 0 — `indexOf` yields `-1`,
so a `+1` adjustment clamps to index 0 and returns `options[0]`
("640x480"), not `options[1]` ("800x600") as the claim states. -/
theorem c4_counterexample :
    adjustSelect ["640x480", "800x600", "1024x576", "1280x720", "1920x1080"]
        "999x999" 1 = "640x480" ∧
    adjustSelect ["640x480", "800x600", "1024x576", "1280x720", "1920x1080"]
        "999x999" 1 ≠ "800x600" := by
  decide

/-- C4 amended: for every Select setting, `adjust` computes
`newIndex = clamp(indexOf(currentValue) + delta, 0, len - 1)` and returns
`options[newIndex]`; when `currentValue` is absent, `indexOf` yields `-1`
(not 0), so after clamping a `+1` delta — like a `-1` delta — yields
`options[0]`; the result is always a member of the declared options
sequence (clamping, never wrapping). -/
theorem c4_select_adjust (options : List String) (value : String) (delta : Int)
    (h : options ≠ []) :
    adjustSelect options value delta ∈ options ∧
    (value ∉ options →
      adjustSelect options value 1 = options.getD 0 "" ∧
      adjustSelect options value (-1) = options.getD 0 "") := by
  refine ⟨adjustSelect_mem options value delta h, fun habs => ?_⟩
  have hidx := jsIndexOf_of_not_mem options value habs
  have hL : 0 < options.length := List.length_pos.mpr h
  constructor <;>
    · simp only [adjustSelect, hidx]
      congr 1
      omega

/-- C4 witness. -/
theorem c4_select_adjust_witness :
    adjustSelect ["640x480", "800x600", "1024x576", "1280x720", "1920x1080"]
        "999x999" 1 ∈ ["640x480", "800x600", "1024x576", "1280x720", "1920x1080"] ∧
    adjustSelect ["640x480", "800x600", "1024x576", "1280x720", "1920x1080"]
        "999x999" 1 = "640x480" := by
  have h := c4_select_adjust
    ["640x480", "800x600", "1024x576", "1280x720", "1920x1080"] "999x999" 1
    (by decide)
  exact ⟨h.1, (h.2 (by decide)).1⟩

/-- C2 counterexample: starting with every auto-flag off and the last
setting (index 14 of 15) selected, pressing `o` (Optimize) enables all
three auto-flags, shrinking the visible set to 12 entries — but
`selectedIndex` stays 14, dangling past the end of the list, violating the
claimed invariant `selectedIndex ∈ [0, visibleCount-1]`. -/
theorem c2_counterexample :
    0 < (visibleSettings
        (handleInput (mkSys freeDevice 14 false { type := .none }) (Key.char 'o')).1).length ∧
    ¬ ((handleInput (mkSys freeDevice 14 false { type := .none }) (Key.char 'o')).1.ui.selectedIndex
        < (visibleSettings
            (handleInput (mkSys freeDevice 14 false { type := .none }) (Key.char 'o')).1).length) := by
  decide

/-- C2 amended: navigation moves keep `selectedIndex` inside
`[0, visibleCount-1]` whenever it already lies in range (Up clamps at 0 by
natural subtraction, Down clamps at `visibleCount-1`); but operations that
shrink the visible set do not clamp: both composite operations leave
`selectedIndex` entirely unchanged, so it can be left dangling past the
end of the list (where, per C10, adjustment attempts are no-ops). -/
theorem c2_index_clamping (s : Sys)
    (h : s.ui.selectedIndex < (visibleSettings s).length) :
    ((handleInput s Key.upArrow).1.ui.selectedIndex
        < (visibleSettings (handleInput s Key.upArrow).1).length) ∧
    ((handleInput s Key.downArrow).1.ui.selectedIndex
        < (visibleSettings (handleInput s Key.downArrow).1).length) ∧
    (uiApplyOptimalSettings s).1.ui.selectedIndex = s.ui.selectedIndex ∧
    (uiResetToDefaults s).1.ui.selectedIndex = s.ui.selectedIndex := by
  refine ⟨?_, ?_, uiApplyOptimalSettings_selectedIndex s, uiResetToDefaults_selectedIndex s⟩ <;>
    · by_cases hd : s.ui.dialog.type = DialogType.none
      · simp only [handleInput, visibleSettings] at h ⊢
        simp [hd]
        omega
      · by_cases hr : s.ui.dialog.type = DialogType.reset <;>
          simp only [handleInput] <;> simp [hd, hr] <;> exact h

/-- C2 witness. -/
theorem c2_index_clamping_witness :
    ((handleInput (mkSys freeDevice 3 false { type := .none }) Key.upArrow).1.ui.selectedIndex
        < (visibleSettings (handleInput (mkSys freeDevice 3 false { type := .none }) Key.upArrow).1).length) ∧
    ((handleInput (mkSys freeDevice 3 false { type := .none }) Key.downArrow).1.ui.selectedIndex
        < (visibleSettings (handleInput (mkSys freeDevice 3 false { type := .none }) Key.downArrow).1).length) ∧
    (uiApplyOptimalSettings (mkSys freeDevice 3 false { type := .none })).1.ui.selectedIndex
        = (mkSys freeDevice 3 false { type := .none }).ui.selectedIndex ∧
    (uiResetToDefaults (mkSys freeDevice 3 false { type := .none })).1.ui.selectedIndex
        = (mkSys freeDevice 3 false { type := .none }).ui.selectedIndex :=
  c2_index_clamping (mkSys freeDevice 3 false { type := .none }) (by decide)

/-- C8: both composite operations issue the full fixed ordered sequence of
backend calls (format change, frame-rate change, then all scalar
controls), for every device outcome — an early failure never
short-circuits the rest — and overall success holds exactly when the
aggregated error list is empty. -/
theorem c8_composites_full_sequence (d : Device) :
    (webcamApplyOptimalSettings d).2.1 = optimalCallList ∧
    (webcamResetToDefaults d).2.1 = resetCallList ∧
    ((webcamApplyOptimalSettings d).2.2.success = true ↔
      (webcamApplyOptimalSettings d).2.2.errors = []) ∧
    ((webcamResetToDefaults d).2.2.success = true ↔
      (webcamResetToDefaults d).2.2.errors = []) :=
  ⟨webcamApplyOptimalSettings_calls d, webcamResetToDefaults_calls d,
   webcamApplyOptimalSettings_success_iff d, webcamResetToDefaults_success_iff d⟩

/-- C7: for every Range setting, `adjust` returns
`clamp(value + delta * step, min, max)`, whose output always lies in
`[min, max]` (for a well-formed range `min ≤ max` with non-negative
`step`), and once the value sits at a bound, further adjustment past that
bound returns the bound. -/
theorem c7_range_adjust (mn mx step value delta : Int)
    (hmm : mn ≤ mx) (hstep : 0 ≤ step) :
    (mn ≤ adjustRange mn mx step value delta ∧
     adjustRange mn mx step value delta ≤ mx) ∧
    (0 ≤ delta → adjustRange mn mx step mx delta = mx) ∧
    (delta ≤ 0 → adjustRange mn mx step mn delta = mn) := by
  refine ⟨⟨le_max_left _ _, max_le hmm (min_le_left _ _)⟩, fun hd => ?_, fun hd => ?_⟩
  · have hp : 0 ≤ delta * step := mul_nonneg hd hstep
    simp only [adjustRange]
    rw [min_eq_left (by omega), max_eq_right hmm]
  · have hp : delta * step ≤ 0 := mul_nonpos_of_nonpos_of_nonneg hd hstep
    simp only [adjustRange]
    rw [min_eq_right (by omega), max_eq_left (by omega)]

/-- C7 witness (brightness range 0..255, step 1). -/
theorem c7_range_adjust_witness :
    ((0 : Int) ≤ adjustRange 0 255 1 250 10 ∧ adjustRange 0 255 1 250 10 ≤ 255) ∧
    adjustRange 0 255 1 255 10 = 255 ∧
    adjustRange 0 255 1 0 (-10) = 0 := by
  have h := c7_range_adjust 0 255 1 250 10 (by decide) (by decide)
  have h2 := c7_range_adjust 0 255 1 255 10 (by decide) (by decide)
  have h3 := c7_range_adjust 0 255 1 0 (-10) (by decide) (by decide)
  exact ⟨h.1, h2.2.1 (by decide), h3.2.2 (by decide)⟩

/-- C5: when the device is busy and the selected setting is one of the
exclusive-access keys (resolution, format, framerate), an adjustment
attempt performs exactly one state change — the error notification
"Cannot change: camera is in use" — with no backend call (so device,
settings and format are untouched); for a selected setting with any other
key, the busy flag makes no observable difference: calls, device, and
every UI field other than the busy mirror itself are identical for any
busy value. -/
theorem c5_busy_lockout (s : Sys) (delta : Int) (item : SettingItem)
    (hsel : (visibleSettings s)[s.ui.selectedIndex]? = some item) :
    (s.ui.deviceBusy = true → item.key ∈ ["resolution", "format", "framerate"] →
      adjustCurrentSetting s delta =
        (showNotification s "Cannot change: camera is in use" .error, [])) ∧
    (item.key ∉ ["resolution", "format", "framerate"] → ∀ b : Bool,
      (adjustCurrentSetting { s with ui := { s.ui with deviceBusy := b } } delta).2
          = (adjustCurrentSetting s delta).2 ∧
      (adjustCurrentSetting { s with ui := { s.ui with deviceBusy := b } } delta).1.device
          = (adjustCurrentSetting s delta).1.device ∧
      (adjustCurrentSetting { s with ui := { s.ui with deviceBusy := b } } delta).1.ui.currentSettings
          = (adjustCurrentSetting s delta).1.ui.currentSettings ∧
      (adjustCurrentSetting { s with ui := { s.ui with deviceBusy := b } } delta).1.ui.currentFormat
          = (adjustCurrentSetting s delta).1.ui.currentFormat ∧
      (adjustCurrentSetting { s with ui := { s.ui with deviceBusy := b } } delta).1.ui.notification
          = (adjustCurrentSetting s delta).1.ui.notification ∧
      (adjustCurrentSetting { s with ui := { s.ui with deviceBusy := b } } delta).1.ui.dialog
          = (adjustCurrentSetting s delta).1.ui.dialog ∧
      (adjustCurrentSetting { s with ui := { s.ui with deviceBusy := b } } delta).1.ui.selectedIndex
          = (adjustCurrentSetting s delta).1.ui.selectedIndex) := by
  constructor
  · intro hb hk
    have hc : (["resolution", "format", "framerate"].contains item.key) = true :=
      List.elem_eq_true_of_mem hk
    rw [adjustCurrentSetting_eq_core s delta item hsel]
    simp only [adjustSettingCore, hb, hc, Bool.and_self]
    rfl
  · intro hk b
    have hc : (["resolution", "format", "framerate"].contains item.key) = false := by
      simpa using hk
    rw [adjustCurrentSetting_eq_core { s with ui := { s.ui with deviceBusy := b } } delta item hsel,
        adjustCurrentSetting_eq_core s delta item hsel]
    exact adjustSettingCore_deviceBusy_irrel s item delta b hc

/-- C5 witness: a busy resolution adjustment produces only the error
notification with no calls, and for brightness a forced busy flag does not
change the issued calls. -/
theorem c5_busy_lockout_witness :
    adjustCurrentSetting (mkSys busyDevice 0 true { type := .none }) 1 =
      (showNotification (mkSys busyDevice 0 true { type := .none })
        "Cannot change: camera is in use" .error, []) ∧
    (adjustCurrentSetting
        { mkSys freeDevice 3 false { type := .none } with
          ui := { (mkSys freeDevice 3 false { type := .none }).ui with deviceBusy := true } } 1).2
      = (adjustCurrentSetting (mkSys freeDevice 3 false { type := .none }) 1).2 :=
  ⟨(c5_busy_lockout (mkSys busyDevice 0 true { type := .none }) 1
      sampleResolutionItem (by decide)).1 rfl (by decide),
   ((c5_busy_lockout (mkSys freeDevice 3 false { type := .none }) 1
      sampleBrightnessItem (by decide)).2 (by decide) true).1⟩

/-- C6: the three dependency rules — whenever a controlling auto-flag is
true, the subordinate key is excluded from the visible-settings sequence;
a direct mutation attempt on a dependency-disabled key is rejected with
only an error notification and no backend call; and every key absent from
the rule table is always visible and never dependency-locked. -/
theorem c6_dependency_rules :
    (∀ (cs : WebcamSettings) (cf : VideoFormat) (item : SettingItem),
        item ∈ visibleSettingsOf cs cf →
        (cs.autoExposure = true → item.key ≠ "exposureValue") ∧
        (cs.autoFocus = true → item.key ≠ "focusValue") ∧
        (cs.autoWhiteBalance = true → item.key ≠ "whiteBalanceValue")) ∧
    (∀ (s : Sys) (item : SettingItem) (delta : Int),
        isManualControlDisabled s.ui.currentSettings item.key = true →
        adjustSettingCore s item delta =
          (showNotification s
            ("Cannot adjust: " ++ getAutoSettingName item.key ++ " is enabled") .error, [])) ∧
    (∀ (cs : WebcamSettings) (key : String),
        key ≠ "exposureValue" → key ≠ "focusValue" → key ≠ "whiteBalanceValue" →
        shouldShowSetting cs key = true ∧ isManualControlDisabled cs key = false) := by
  refine ⟨?_, ?_, ?_⟩
  · intro cs cf item hm
    have hv : shouldShowSetting cs item.key = true :=
      (List.mem_filter.mp hm).2
    refine ⟨fun ha hk => ?_, fun ha hk => ?_, fun ha hk => ?_⟩ <;>
      rw [hk] at hv <;> simp [shouldShowSetting, ha] at hv
  · intro s item delta hd
    have hkey : item.key = "exposureValue" ∨ item.key = "focusValue" ∨
        item.key = "whiteBalanceValue" := by
      by_contra hall
      push_neg at hall
      simp [isManualControlDisabled, hall.1, hall.2.1, hall.2.2] at hd
    have hc : (["resolution", "format", "framerate"].contains item.key) = false := by
      rcases hkey with h | h | h <;> rw [h] <;> rfl
    simp only [adjustSettingCore, hc, Bool.and_false, Bool.false_eq_true, if_false, hd]
    rfl
  · intro cs key h1 h2 h3
    constructor <;> simp [shouldShowSetting, isManualControlDisabled, h1, h2, h3]

/-- C6 witness. -/
theorem c6_dependency_rules_witness :
    sampleResolutionItem.key ≠ "exposureValue" ∧
    adjustSettingCore (mkSys autoDevice 0 false { type := .none }) sampleExposureItem 1 =
      (showNotification (mkSys autoDevice 0 false { type := .none })
        ("Cannot adjust: " ++ getAutoSettingName sampleExposureItem.key ++ " is enabled")
        .error, []) ∧
    shouldShowSetting sampleSettings "brightness" = true ∧
    isManualControlDisabled sampleSettings "brightness" = false :=
  ⟨(c6_dependency_rules.1 autoOnSettings sampleFormat sampleResolutionItem (by decide)).1 rfl,
   c6_dependency_rules.2.1 (mkSys autoDevice 0 false { type := .none })
     sampleExposureItem 1 (by decide),
   (c6_dependency_rules.2.2 sampleSettings "brightness"
     (by decide) (by decide) (by decide)).1,
   (c6_dependency_rules.2.2 sampleSettings "brightness"
     (by decide) (by decide) (by decide)).2⟩

/-- C9: while the Confirm (reset) dialog is open, `y`/`Y` closes the
dialog and executes the pending reset-to-defaults action (the full fixed
backend call sequence is issued); `n`/`N`/Escape closes the dialog with no
backend call and no other state change; any other input is ignored while
the Confirm dialog is open, and while any other dialog is open every input
besides Enter/Escape/`q` (which merely close it) is ignored. -/
theorem c9_confirm_dialog (s : Sys) (k : Key) :
    (s.ui.dialog.type = .reset →
      ((k = .char 'y' ∨ k = .char 'Y') →
        (handleInput s k).1.ui.dialog = { type := .none } ∧
        (handleInput s k).2 = resetCallList) ∧
      ((k = .char 'n' ∨ k = .char 'N' ∨ k = .escape) →
        handleInput s k = (setDialog s { type := .none }, [])) ∧
      (k ≠ .char 'y' → k ≠ .char 'Y' → k ≠ .char 'n' → k ≠ .char 'N' →
        k ≠ .escape → handleInput s k = (s, []))) ∧
    (s.ui.dialog.type ≠ .none → s.ui.dialog.type ≠ .reset →
      k ≠ .enter → k ≠ .escape → k ≠ .char 'q' →
      handleInput s k = (s, [])) := by
  constructor
  · intro hr
    refine ⟨fun hk => ?_, fun hk => ?_, fun h1 h2 h3 h4 h5 => ?_⟩
    · have : handleInput s k = uiResetToDefaults (setDialog s { type := .none }) := by
        rcases hk with rfl | rfl <;> simp [handleInput, hr]
      rw [this]
      exact ⟨uiResetToDefaults_dialog _, uiResetToDefaults_calls _⟩
    · rcases hk with rfl | rfl | rfl <;> simp [handleInput, hr]
    · simp [handleInput, hr, h1, h2, h3, h4, h5]
  · intro hn hnr h1 h2 h3
    simp [handleInput, hn, hnr, h1, h2, h3]

/-- C9 witness. -/
theorem c9_confirm_dialog_witness :
    ((handleInput (mkSys freeDevice 0 false { type := .reset }) (Key.char 'y')).1.ui.dialog
        = { type := .none } ∧
     (handleInput (mkSys freeDevice 0 false { type := .reset }) (Key.char 'y')).2
        = resetCallList) ∧
    handleInput (mkSys freeDevice 0 false { type := .reset }) (Key.char 'n')
      = (setDialog (mkSys freeDevice 0 false { type := .reset }) { type := .none }, []) ∧
    handleInput (mkSys freeDevice 0 false { type := .reset }) Key.upArrow
      = (mkSys freeDevice 0 false { type := .reset }, []) ∧
    handleInput (mkSys freeDevice 0 false { type := .help }) (Key.char 'x')
      = (mkSys freeDevice 0 false { type := .help }, []) :=
  ⟨(c9_confirm_dialog (mkSys freeDevice 0 false { type := .reset }) (Key.char 'y')).1
      rfl |>.1 (Or.inl rfl),
   (c9_confirm_dialog (mkSys freeDevice 0 false { type := .reset }) (Key.char 'n')).1
      rfl |>.2.1 (Or.inl rfl),
   (c9_confirm_dialog (mkSys freeDevice 0 false { type := .reset }) Key.upArrow).1
      rfl |>.2.2 (by decide) (by decide) (by decide) (by decide) (by decide),
   (c9_confirm_dialog (mkSys freeDevice 0 false { type := .help }) (Key.char 'x')).2
      (by decide) (by decide) (by decide) (by decide) (by decide)⟩

/-- C10: when `selectedIndex` falls outside the visible-settings sequence,
an adjustment attempt with any delta is a total no-op: the state is
returned unchanged (no notification, no field change) and no backend call
is made. -/
theorem c10_dangling_index_noop (s : Sys) (delta : Int)
    (h : (visibleSettings s).length ≤ s.ui.selectedIndex) :
    adjustCurrentSetting s delta = (s, []) := by
  unfold adjustCurrentSetting
  rw [List.getElem?_eq_none h]

/-- C10 witness: index 100 with all 15 settings visible. -/
theorem c10_dangling_index_noop_witness :
    adjustCurrentSetting (mkSys freeDevice 100 false { type := .none }) 1 =
      (mkSys freeDevice 100 false { type := .none }, []) :=
  c10_dangling_index_noop (mkSys freeDevice 100 false { type := .none }) 1 (by decide)

end LogiCam
